import Mathlib

/-
Verification of the animation phase controller in
src/src/components/Disintegrate.tsx.

The embedding models JavaScript numbers as rationals (every quantity the
controller computes stays within exactly representable values for the
properties below), optional fields of the timing record as Option, and the
frame loop, the deferred finalize timeout and teardown as an explicit event
step function on an explicit component state.
-/

namespace Disintegrate

/-- The Direction union type of Disintegrate.tsx (random, left, up). -/
inductive Direction
  | random
  | left
  | up
deriving DecidableEq, Repr

/-- AnimationTiming: all four fields are optional in the source interface. -/
structure AnimationTiming where
  initialDelay : Option ℚ
  fadeInDuration : Option ℚ
  holdDuration : Option ℚ
  fadeOutDuration : Option ℚ
deriving DecidableEq, Repr

/-- The animationPhase union type: initial, fadeIn, hold, fadeOut, complete. -/
inductive AnimationPhase
  | initial
  | fadeIn
  | hold
  | fadeOut
  | complete
deriving DecidableEq, Repr

/-- Rank of a phase in the documented order Initial < FadeIn < Hold < FadeOut < Complete. -/
def phaseRank : AnimationPhase → ℕ
  | .initial => 0
  | .fadeIn => 1
  | .hold => 2
  | .fadeOut => 3
  | .complete => 4

/-- getDirectionAngles from Disintegrate.tsx lines 58-64: left gives
xAngle 0 and yAngle 1, up gives xAngle 1 and yAngle 0, the default
branch gives both 0. -/
def getDirectionAngles : Direction → ℚ × ℚ
  | .left => (0, 1)
  | .up => (1, 0)
  | .random => (0, 0)

/-- easeOutCubic from line 72 (part of the easing vocabulary, unused by the
current phase mapping). -/
def easeOutCubic (t : ℚ) : ℚ := 1 - (1 - t) ^ 3

/-- easeInCubic from line 73. -/
def easeInCubic (t : ℚ) : ℚ := t * t * t

/-- getPhaseProgress from lines 100-128: destructures the timing record with
the per-field defaults 200, 400, 200, 1200 and classifies the elapsed time
against cumulative boundaries. -/
def getPhaseProgress (timing : AnimationTiming) (elapsed : ℚ) :
    AnimationPhase × ℚ :=
  let initialDelay := timing.initialDelay.getD 200
  let fadeInDuration := timing.fadeInDuration.getD 400
  let holdDuration := timing.holdDuration.getD 200
  let fadeOutDuration := timing.fadeOutDuration.getD 1200
  let totalDuration := initialDelay + fadeInDuration + holdDuration + fadeOutDuration
  if elapsed < initialDelay then
    (.initial, elapsed / initialDelay)
  else if elapsed < initialDelay + fadeInDuration then
    (.fadeIn, (elapsed - initialDelay) / fadeInDuration)
  else if elapsed < initialDelay + fadeInDuration + holdDuration then
    (.hold, (elapsed - initialDelay - fadeInDuration) / holdDuration)
  else if elapsed < totalDuration then
    (.fadeOut, (elapsed - initialDelay - fadeInDuration - holdDuration) / fadeOutDuration)
  else
    (.complete, 1)

/-- Division that faults (returns none) on a zero divisor, used to express
that no reachable branch of getPhaseProgress divides by zero. -/
def divChecked (a b : ℚ) : Option ℚ := if b = 0 then none else some (a / b)

/-- getPhaseProgress with every division routed through divChecked: returns
none exactly when the branch taken would divide by a zero duration. -/
def getPhaseProgressChecked (timing : AnimationTiming) (elapsed : ℚ) :
    Option (AnimationPhase × ℚ) :=
  let initialDelay := timing.initialDelay.getD 200
  let fadeInDuration := timing.fadeInDuration.getD 400
  let holdDuration := timing.holdDuration.getD 200
  let fadeOutDuration := timing.fadeOutDuration.getD 1200
  let totalDuration := initialDelay + fadeInDuration + holdDuration + fadeOutDuration
  if elapsed < initialDelay then
    (divChecked elapsed initialDelay).map (fun p => (.initial, p))
  else if elapsed < initialDelay + fadeInDuration then
    (divChecked (elapsed - initialDelay) fadeInDuration).map (fun p => (.fadeIn, p))
  else if elapsed < initialDelay + fadeInDuration + holdDuration then
    (divChecked (elapsed - initialDelay - fadeInDuration) holdDuration).map
      (fun p => (.hold, p))
  else if elapsed < totalDuration then
    (divChecked (elapsed - initialDelay - fadeInDuration - holdDuration) fadeOutDuration).map
      (fun p => (.fadeOut, p))
  else
    some (.complete, 1)

/-- getEffectIntensity from lines 130-144; the default branch of the switch
covers the complete phase. In ℚ the literals 0.3 and 0.7 are exactly 3/10
and 7/10. -/
def getEffectIntensity : AnimationPhase → ℚ → ℚ
  | .initial, _ => 0
  | .fadeIn, progress => easeInCubic progress * 0.3
  | .hold, _ => 0.3
  | .fadeOut, progress => 0.3 + progress * 0.7
  | .complete, _ => 0

example : getPhaseProgress ⟨some 200, some 400, some 200, some 1200⟩ 600 = (.hold, 0) := by
  norm_num [getPhaseProgress]

example : getPhaseProgress ⟨some 200, some 400, some 200, some 1200⟩ 2000 = (.complete, 1) := by
  norm_num [getPhaseProgress]

example : getEffectIntensity .fadeOut 1 = 1 := by norm_num [getEffectIntensity]

/-- The channel selector tags written to the feDisplacementMap. -/
inductive ChannelSelector
  | R
  | G
  | A
deriving DecidableEq, Repr

/-- One setAttribute call on the filter nodes: either the displacement scale,
one of the two channel selectors, or the turbulence seed. -/
inductive AttrWrite
  | scale (value : ℚ)
  | xChannelSelector (tag : ChannelSelector)
  | yChannelSelector (tag : ChannelSelector)
  | seed (value : ℕ)
deriving DecidableEq, Repr

/-- The mutable state of one mounted Disintegrate component: the two React
state cells, the two refs (startTimeRef, and whether a requestAnimationFrame
callback is currently pending through animationRef), whether the deferred
setTimeout(resetEffect, 0) is pending, whether the SVG filter ref is
attached, and how many times onComplete has been invoked. -/
structure ComponentState where
  isDisintegrating : Bool
  animationPhase : AnimationPhase
  startTime : Option ℚ
  frameScheduled : Bool
  finalizeScheduled : Bool
  filterAttached : Bool
  completeCalls : ℕ
deriving DecidableEq, Repr

/-- The state of a freshly mounted component before any run. -/
def idleState (filterAttached : Bool) : ComponentState :=
  { isDisintegrating := false
    animationPhase := .initial
    startTime := none
    frameScheduled := false
    finalizeScheduled := false
    filterAttached := filterAttached
    completeCalls := 0 }

/-- JavaScript `x || d` on an optional numeric field: the default is taken
when the field is absent or its value is falsy (zero). Models line 161,
`timing.fadeOutDuration || 1200`. -/
def jsOr (v : Option ℚ) (d : ℚ) : ℚ :=
  match v with
  | none => d
  | some x => if x = 0 then d else x

/-- resetEffect from lines 75-83: sets the displacement scale attribute to 0
when the filter is attached, clears the running flag, resets the phase, and
invokes onComplete. -/
def resetEffect (s : ComponentState) : ComponentState × List AttrWrite :=
  let writes := if s.filterAttached then [AttrWrite.scale 0] else []
  ({ s with isDisintegrating := false
            animationPhase := .initial
            completeCalls := s.completeCalls + 1 }, writes)

/-- setRandomSeed from lines 93-98: writes the seed attribute when the filter
is attached; the random integer is a parameter of the model. -/
def setRandomSeed (seed : ℕ) (s : ComponentState) : List AttrWrite :=
  if s.filterAttached then [AttrWrite.seed seed] else []

/-- animate from lines 146-176: one tick. Returns early when the start time
ref is falsy (absent, or the JavaScript number 0); otherwise classifies the elapsed time, updates the exposed phase,
pushes attributes when the filter is attached (selectors only for non-random
directions), and either schedules the next frame or, on complete, schedules
the deferred resetEffect timeout. Writing the phase unconditionally has the
same net state as the if-changed setAnimationPhase guard in the source. -/
def animate (timing : AnimationTiming) (direction : Direction) (now : ℚ)
    (s : ComponentState) : ComponentState × List AttrWrite :=
  match s.startTime with
  | none => (s, [])
  | some t0 =>
    if t0 = 0 then (s, []) else
    let elapsed := now - t0
    let pp := getPhaseProgress timing elapsed
    let phase := pp.1
    let intensity := getEffectIntensity phase pp.2
    let s1 := { s with animationPhase := phase }
    let angles := getDirectionAngles direction
    let writes :=
      if s.filterAttached then
        let scale := intensity * jsOr timing.fadeOutDuration 1200
        if direction = .random then
          [AttrWrite.scale scale]
        else
          [AttrWrite.xChannelSelector (if angles.1 ≠ 0 then .R else .A),
           AttrWrite.yChannelSelector (if angles.2 ≠ 0 then .G else .A),
           AttrWrite.scale scale]
      else []
    if phase ≠ .complete then
      ({ s1 with frameScheduled := true }, writes)
    else
      ({ s1 with finalizeScheduled := true }, writes)

/-- startDisintegration from lines 85-91: marks the run active, resets the
phase, records the start timestamp, writes a random seed, and runs the first
tick synchronously. -/
def startDisintegration (timing : AnimationTiming) (direction : Direction)
    (now : ℚ) (seed : ℕ) (s : ComponentState) : ComponentState × List AttrWrite :=
  let s1 := { s with isDisintegrating := true
                     animationPhase := .initial
                     startTime := some now }
  let seedWrites := setRandomSeed seed s1
  let r := animate timing direction now s1
  (r.1, seedWrites ++ r.2)

/-- The isActive effect from lines 66-70: a start request only takes effect
when the activation signal is set and no run is active. -/
def isActiveEffect (isActive : Bool) (timing : AnimationTiming)
    (direction : Direction) (now : ℚ) (seed : ℕ) (s : ComponentState) :
    ComponentState × List AttrWrite :=
  if isActive && !s.isDisintegrating then
    startDisintegration timing direction now seed s
  else
    (s, [])

/-- The asynchronous events the host event loop can deliver to a mounted
component: a pending animation frame firing, the pending finalize timeout
firing, and the teardown cleanup from lines 178-184 (which calls only
cancelAnimationFrame, so it clears the pending frame and nothing else). -/
inductive Event
  | frame (now : ℚ)
  | timeout
  | cancel
deriving DecidableEq, Repr

/-- One event-loop step: a frame callback fires only if one is scheduled and
consumes its handle before running animate; the timeout fires only if
scheduled and runs resetEffect; cancel is the useEffect cleanup. -/
def step (timing : AnimationTiming) (direction : Direction)
    (s : ComponentState) : Event → ComponentState × List AttrWrite
  | .frame now =>
    if s.frameScheduled then
      animate timing direction now { s with frameScheduled := false }
    else (s, [])
  | .timeout =>
    if s.finalizeScheduled then
      resetEffect { s with finalizeScheduled := false }
    else (s, [])
  | .cancel => ({ s with frameScheduled := false }, [])

/-- Run a list of events from a state, discarding the attribute writes. -/
def runEvents (timing : AnimationTiming) (direction : Direction)
    (s : ComponentState) : List Event → ComponentState
  | [] => s
  | e :: es => runEvents timing direction (step timing direction s e).1 es

/-- Helper for C1 and C10: past the sum of non-negative resolved durations,
classification is (complete, 1). -/
lemma getPhaseProgress_complete_core (timing : AnimationTiming)
    (d0 d1 d2 d3 elapsed : ℚ)
    (hr0 : timing.initialDelay.getD 200 = d0)
    (hr1 : timing.fadeInDuration.getD 400 = d1)
    (hr2 : timing.holdDuration.getD 200 = d2)
    (hr3 : timing.fadeOutDuration.getD 1200 = d3)
    (h0 : 0 ≤ d0) (h1 : 0 ≤ d1) (h2 : 0 ≤ d2) (h3 : 0 ≤ d3)
    (he : d0 + d1 + d2 + d3 ≤ elapsed) :
    getPhaseProgress timing elapsed = (.complete, 1) := by
  simp only [getPhaseProgress, hr0, hr1, hr2, hr3]
  split_ifs with hA hB hC hD
  · exact absurd hA (by linarith)
  · exact absurd hB (by linarith)
  · exact absurd hC (by linarith)
  · exact absurd hD (by linarith)
  · rfl

/-- C1: for every timing configuration whose resolved durations are all
non-negative and every elapsed time at least their sum, getPhaseProgress
returns the pair (complete, 1). -/
theorem getPhaseProgress_complete_of_total_le (timing : AnimationTiming)
    (d0 d1 d2 d3 elapsed : ℚ)
    (hr0 : timing.initialDelay.getD 200 = d0)
    (hr1 : timing.fadeInDuration.getD 400 = d1)
    (hr2 : timing.holdDuration.getD 200 = d2)
    (hr3 : timing.fadeOutDuration.getD 1200 = d3)
    (h0 : 0 ≤ d0) (h1 : 0 ≤ d1) (h2 : 0 ≤ d2) (h3 : 0 ≤ d3)
    (he : d0 + d1 + d2 + d3 ≤ elapsed) :
    getPhaseProgress timing elapsed = (.complete, 1) :=
  getPhaseProgress_complete_core timing d0 d1 d2 d3 elapsed hr0 hr1 hr2 hr3 h0 h1 h2 h3 he

/-- Witness for C1 at the default timing and elapsed 2000. -/
theorem getPhaseProgress_complete_of_total_le_witness :
    getPhaseProgress ⟨some 200, some 400, some 200, some 1200⟩ 2000 = (.complete, 1) :=
  getPhaseProgress_complete_of_total_le _ 200 400 200 1200 2000
    rfl rfl rfl rfl (by norm_num) (by norm_num) (by norm_num) (by norm_num) (by norm_num)

/-- C3: the intensity map takes value 3/10 (= 0.3) at fadeIn with progress 1
and at fadeOut with progress 0, matching the constant 3/10 on hold, and
takes value 1 at fadeOut with progress 1. -/
theorem getEffectIntensity_seam_values :
    getEffectIntensity .fadeIn 1 = 0.3 ∧
    (∀ p : ℚ, getEffectIntensity .hold p = 0.3) ∧
    getEffectIntensity .fadeOut 0 = 0.3 ∧
    getEffectIntensity .fadeOut 1 = 1 := by
  refine ⟨?_, fun p => rfl, ?_, ?_⟩ <;> norm_num [getEffectIntensity, easeInCubic]

/-- C5: a start request delivered while a run is already active leaves the
component state unchanged and performs no attribute write: no new start
timestamp, no new seed, still exactly one active run. -/
theorem isActiveEffect_noop_when_active (timing : AnimationTiming)
    (direction : Direction) (now : ℚ) (seed : ℕ) (s : ComponentState)
    (h : s.isDisintegrating = true) :
    isActiveEffect true timing direction now seed s = (s, []) := by
  simp [isActiveEffect, h]

/-- Witness for C5: a concrete active state is untouched by a second start. -/
theorem isActiveEffect_noop_when_active_witness :
    isActiveEffect true ⟨some 200, some 400, some 200, some 1200⟩ .left 500 7
      { isDisintegrating := true, animationPhase := .fadeIn, startTime := some 100,
        frameScheduled := true, finalizeScheduled := false, filterAttached := true,
        completeCalls := 0 } =
    ({ isDisintegrating := true, animationPhase := .fadeIn, startTime := some 100,
       frameScheduled := true, finalizeScheduled := false, filterAttached := true,
       completeCalls := 0 }, []) :=
  isActiveEffect_noop_when_active _ _ _ _ _ rfl

/-- C9: when the filter handle is not attached, a tick of an active run whose
phase is not yet complete performs no attribute write and still schedules the
next frame. -/
theorem animate_no_filter_continues (timing : AnimationTiming)
    (direction : Direction) (now t0 : ℚ) (s : ComponentState)
    (hf : s.filterAttached = false) (hst : s.startTime = some t0) (ht0 : t0 ≠ 0)
    (hph : (getPhaseProgress timing (now - t0)).1 ≠ .complete) :
    (animate timing direction now s).2 = [] ∧
    (animate timing direction now s).1.frameScheduled = true := by
  simp only [animate, hst, hf]
  simp [ht0, hph]

/-- Witness for C9: a detached filter at elapsed 100 of the default timing. -/
theorem animate_no_filter_continues_witness :
    (animate ⟨some 200, some 400, some 200, some 1200⟩ .random 1100
      { isDisintegrating := true, animationPhase := .initial, startTime := some 1000,
        frameScheduled := false, finalizeScheduled := false, filterAttached := false,
        completeCalls := 0 }).2 = [] ∧
    (animate ⟨some 200, some 400, some 200, some 1200⟩ .random 1100
      { isDisintegrating := true, animationPhase := .initial, startTime := some 1000,
        frameScheduled := false, finalizeScheduled := false, filterAttached := false,
        completeCalls := 0 }).1.frameScheduled = true :=
  animate_no_filter_continues _ _ _ 1000 _ rfl rfl (by norm_num)
    (by norm_num [getPhaseProgress]; simp)

/-- C8: direction left maps to the angle pair (0, 1), and on a tick with a
non-random direction the emitted writes are exactly the selector pair given
by the nonzero-angle rule (x is R when the x angle is nonzero, else A; y is G
when the y angle is nonzero, else A) followed by the scale write; for left
the emitted tags are therefore x = A and y = G. -/
theorem animate_direction_selectors (timing : AnimationTiming)
    (direction : Direction) (now t0 : ℚ) (s : ComponentState)
    (hdir : direction ≠ .random) (hf : s.filterAttached = true)
    (hst : s.startTime = some t0) (ht0 : t0 ≠ 0) :
    getDirectionAngles .left = (0, 1) ∧
    (animate timing direction now s).2 =
      [AttrWrite.xChannelSelector
        (if (getDirectionAngles direction).1 ≠ 0 then .R else .A),
       AttrWrite.yChannelSelector
        (if (getDirectionAngles direction).2 ≠ 0 then .G else .A),
       AttrWrite.scale
        (getEffectIntensity (getPhaseProgress timing (now - t0)).1
          (getPhaseProgress timing (now - t0)).2 * jsOr timing.fadeOutDuration 1200)] ∧
    (direction = .left →
      (animate timing direction now s).2.take 2 =
        [AttrWrite.xChannelSelector .A, AttrWrite.yChannelSelector .G]) := by
  refine ⟨rfl, ?_, ?_⟩
  · simp only [animate, hst, hf]
    simp [ht0, hdir]
    split_ifs <;> simp
  · rintro rfl
    simp only [animate, hst, hf]
    simp [ht0, hdir, getDirectionAngles]
    split_ifs <;> simp

/-- Witness for C8 at direction left with the default timing. -/
theorem animate_direction_selectors_witness :
    getDirectionAngles .left = (0, 1) ∧
    (animate ⟨some 200, some 400, some 200, some 1200⟩ .left 1100
      { isDisintegrating := true, animationPhase := .initial, startTime := some 1000,
        frameScheduled := false, finalizeScheduled := false, filterAttached := true,
        completeCalls := 0 }).2 =
      [AttrWrite.xChannelSelector
        (if (getDirectionAngles .left).1 ≠ 0 then .R else .A),
       AttrWrite.yChannelSelector
        (if (getDirectionAngles .left).2 ≠ 0 then .G else .A),
       AttrWrite.scale
        (getEffectIntensity
          (getPhaseProgress ⟨some 200, some 400, some 200, some 1200⟩ (1100 - 1000)).1
          (getPhaseProgress ⟨some 200, some 400, some 200, some 1200⟩ (1100 - 1000)).2 *
          jsOr (some 1200) 1200)] ∧
    (Direction.left = .left →
      (animate ⟨some 200, some 400, some 200, some 1200⟩ .left 1100
        { isDisintegrating := true, animationPhase := .initial, startTime := some 1000,
          frameScheduled := false, finalizeScheduled := false, filterAttached := true,
          completeCalls := 0 }).2.take 2 =
        [AttrWrite.xChannelSelector .A, AttrWrite.yChannelSelector .G]) :=
  animate_direction_selectors _ _ _ 1000 _ (by simp) rfl rfl (by norm_num)

/-- C2 (amended): on a tick of an active run with the filter attached, when
the configured fadeOutDuration is present and nonzero, the scale written to
the filter is exactly intensity times fadeOutDuration, in every phase. -/
theorem animate_scale_eq_intensity_mul_fadeOut (timing : AnimationTiming)
    (direction : Direction) (now t0 d : ℚ) (s : ComponentState)
    (hf : s.filterAttached = true) (hst : s.startTime = some t0) (ht0 : t0 ≠ 0)
    (hd : timing.fadeOutDuration = some d) (hdz : d ≠ 0) :
    AttrWrite.scale
      (getEffectIntensity (getPhaseProgress timing (now - t0)).1
        (getPhaseProgress timing (now - t0)).2 * d) ∈ (animate timing direction now s).2 := by
  have hjs : jsOr timing.fadeOutDuration 1200 = d := by simp [jsOr, hd, hdz]
  simp only [animate, hst, hf]
  simp only [ht0, if_false, if_true, hjs]
  cases direction <;> split_ifs <;> simp

/-- Witness for C2 at the default timing in the fadeOut phase. -/
theorem animate_scale_eq_intensity_mul_fadeOut_witness :
    AttrWrite.scale
      (getEffectIntensity
        (getPhaseProgress ⟨some 200, some 400, some 200, some 1200⟩ (2000 - 1000)).1
        (getPhaseProgress ⟨some 200, some 400, some 200, some 1200⟩ (2000 - 1000)).2 * 1200) ∈
    (animate ⟨some 200, some 400, some 200, some 1200⟩ .random 2000
      { isDisintegrating := true, animationPhase := .hold, startTime := some 1000,
        frameScheduled := false, finalizeScheduled := false, filterAttached := true,
        completeCalls := 0 }).2 :=
  animate_scale_eq_intensity_mul_fadeOut _ _ _ 1000 1200 _ rfl rfl (by norm_num) rfl
    (by norm_num)

/-- C2 counterexample: with fadeOutDuration configured as 0 the code falls
back to the default 1200 through the JavaScript or operator, so in the hold
phase (intensity 3/10) the pushed scale is 360, not intensity times the
configured fadeOutDuration, which would be 0. -/
theorem animate_scale_zero_fadeOut_counterexample :
    (animate ⟨some 0, some 100, some 100, some 0⟩ .random 1150
      { isDisintegrating := true, animationPhase := .hold, startTime := some 1000,
        frameScheduled := false, finalizeScheduled := false, filterAttached := true,
        completeCalls := 0 }).2 = [AttrWrite.scale 360] ∧
    getEffectIntensity
        (getPhaseProgress ⟨some 0, some 100, some 100, some 0⟩ (1150 - 1000)).1
        (getPhaseProgress ⟨some 0, some 100, some 100, some 0⟩ (1150 - 1000)).2 * 0 ≠
      (360 : ℚ) := by
  constructor
  · norm_num [animate, getPhaseProgress, getEffectIntensity, jsOr]
    simp
  · norm_num [getPhaseProgress, getEffectIntensity]

/-- Helper: a phase of rank at least four is the complete phase. -/
lemma eq_complete_of_four_le_phaseRank (p : AnimationPhase)
    (h : 4 ≤ phaseRank p) : p = .complete := by
  cases p <;> simp_all [phaseRank]

/-- C6: for every non-negative elapsed time, getPhaseProgress with every
division guarded never takes a branch that divides by zero (the checked
variant returns some, equal to the unchecked result), and a zero-length
phase is never the classified phase: classification falls through past it on
the same evaluation. -/
theorem getPhaseProgress_zero_duration_safe (timing : AnimationTiming)
    (d0 d1 d2 d3 elapsed : ℚ)
    (hr0 : timing.initialDelay.getD 200 = d0)
    (hr1 : timing.fadeInDuration.getD 400 = d1)
    (hr2 : timing.holdDuration.getD 200 = d2)
    (hr3 : timing.fadeOutDuration.getD 1200 = d3)
    (he : 0 ≤ elapsed) :
    getPhaseProgressChecked timing elapsed = some (getPhaseProgress timing elapsed) ∧
    (d0 = 0 → (getPhaseProgress timing elapsed).1 ≠ .initial) ∧
    (d1 = 0 → (getPhaseProgress timing elapsed).1 ≠ .fadeIn) ∧
    (d2 = 0 → (getPhaseProgress timing elapsed).1 ≠ .hold) ∧
    (d3 = 0 → (getPhaseProgress timing elapsed).1 ≠ .fadeOut) := by
  simp only [getPhaseProgress, getPhaseProgressChecked, hr0, hr1, hr2, hr3]
  split_ifs with hA hB hC hD
  · have hne : d0 ≠ 0 := (lt_of_le_of_lt he hA).ne'
    simp [divChecked, hne]
  · have hne : d1 ≠ 0 := by
      intro hz
      rw [hz, add_zero] at hB
      exact hA hB
    simp [divChecked, hne]
  · have hne : d2 ≠ 0 := by
      intro hz
      rw [hz, add_zero] at hC
      exact hB hC
    simp [divChecked, hne]
  · have hne : d3 ≠ 0 := by
      intro hz
      rw [hz, add_zero] at hD
      exact hC hD
    simp [divChecked, hne]
  · simp

/-- Witness for C6: initialDelay and holdDuration zero, elapsed 50: no branch
divides by zero, the phase is fadeIn, and the zero phases are skipped. -/
theorem getPhaseProgress_zero_duration_safe_witness :
    getPhaseProgressChecked ⟨some 0, some 100, some 0, some 100⟩ 50 =
      some (getPhaseProgress ⟨some 0, some 100, some 0, some 100⟩ 50) ∧
    ((0 : ℚ) = 0 → (getPhaseProgress ⟨some 0, some 100, some 0, some 100⟩ 50).1 ≠ .initial) ∧
    ((100 : ℚ) = 0 → (getPhaseProgress ⟨some 0, some 100, some 0, some 100⟩ 50).1 ≠ .fadeIn) ∧
    ((0 : ℚ) = 0 → (getPhaseProgress ⟨some 0, some 100, some 0, some 100⟩ 50).1 ≠ .hold) ∧
    ((100 : ℚ) = 0 → (getPhaseProgress ⟨some 0, some 100, some 0, some 100⟩ 50).1 ≠ .fadeOut) :=
  getPhaseProgress_zero_duration_safe _ 0 100 0 100 50 rfl rfl rfl rfl (by norm_num)

/-- C7: for a fixed timing configuration the classified phase is monotone
non-decreasing in elapsed time under the order initial, fadeIn, hold,
fadeOut, complete, and complete is terminal. -/
theorem getPhaseProgress_phase_monotone (timing : AnimationTiming) (e1 e2 : ℚ)
    (h : e1 ≤ e2) :
    phaseRank (getPhaseProgress timing e1).1 ≤ phaseRank (getPhaseProgress timing e2).1 ∧
    ((getPhaseProgress timing e1).1 = .complete →
      (getPhaseProgress timing e2).1 = .complete) := by
  have hmono : phaseRank (getPhaseProgress timing e1).1 ≤
      phaseRank (getPhaseProgress timing e2).1 := by
    simp only [getPhaseProgress]
    split_ifs <;> (simp [phaseRank]; try linarith)
  refine ⟨hmono, fun hc => eq_complete_of_four_le_phaseRank _ ?_⟩
  calc (4 : ℕ) = phaseRank (getPhaseProgress timing e1).1 := by rw [hc]; rfl
    _ ≤ _ := hmono

/-- Witness for C7 at the default timing, elapsed 100 then 900. -/
theorem getPhaseProgress_phase_monotone_witness :
    phaseRank (getPhaseProgress ⟨some 200, some 400, some 200, some 1200⟩ 100).1 ≤
      phaseRank (getPhaseProgress ⟨some 200, some 400, some 200, some 1200⟩ 900).1 ∧
    ((getPhaseProgress ⟨some 200, some 400, some 200, some 1200⟩ 100).1 = .complete →
      (getPhaseProgress ⟨some 200, some 400, some 200, some 1200⟩ 900).1 = .complete) :=
  getPhaseProgress_phase_monotone _ 100 900 (by norm_num)

/-- C4 (evidence of the code bug): a run under the default timing is started
at time 1000, its tick at time 3000 reaches complete and schedules the
deferred resetEffect timeout; the teardown cleanup then runs, which only
cancels the animation frame; the still-pending timeout fires afterwards and
resetEffect invokes onComplete, so cancellation did not prevent the
completion callback. -/
theorem cancel_leaves_finalize_pending :
    (startDisintegration ⟨some 200, some 400, some 200, some 1200⟩ .random 1000 7
      (idleState false)).1.frameScheduled = true ∧
    (step ⟨some 200, some 400, some 200, some 1200⟩ .random
      (startDisintegration ⟨some 200, some 400, some 200, some 1200⟩ .random 1000 7
        (idleState false)).1 (.frame 3000)).1.animationPhase = .complete ∧
    (runEvents ⟨some 200, some 400, some 200, some 1200⟩ .random
      (startDisintegration ⟨some 200, some 400, some 200, some 1200⟩ .random 1000 7
        (idleState false)).1 [.frame 3000, .cancel]).frameScheduled = false ∧
    (runEvents ⟨some 200, some 400, some 200, some 1200⟩ .random
      (startDisintegration ⟨some 200, some 400, some 200, some 1200⟩ .random 1000 7
        (idleState false)).1 [.frame 3000, .cancel]).finalizeScheduled = true ∧
    (runEvents ⟨some 200, some 400, some 200, some 1200⟩ .random
      (startDisintegration ⟨some 200, some 400, some 200, some 1200⟩ .random 1000 7
        (idleState false)).1 [.frame 3000, .cancel, .timeout]).completeCalls = 1 := by
  norm_num [startDisintegration, animate, step, runEvents, resetEffect, idleState,
    setRandomSeed, getPhaseProgress, getEffectIntensity, jsOr,
    show AnimationPhase.initial ≠ AnimationPhase.complete from by simp]

/-- The intensity the controller computes for a given elapsed time: the
composition of getEffectIntensity with getPhaseProgress, as on lines
150-151 of animate. -/
def effectIntensityAt (timing : AnimationTiming) (elapsed : ℚ) : ℚ :=
  getEffectIntensity (getPhaseProgress timing elapsed).1 (getPhaseProgress timing elapsed).2

set_option maxHeartbeats 1600000 in
/-- C10: with all four resolved durations strictly positive, the composed
elapsed-to-intensity map is monotone non-decreasing on the interval from 0 up
to (excluding) the total duration, stays within [0, 1] there, starts at 0,
and is 0 again at the total duration, where the phase is complete. -/
theorem effectIntensityAt_monotone (timing : AnimationTiming)
    (d0 d1 d2 d3 e1 e2 : ℚ)
    (hr0 : timing.initialDelay.getD 200 = d0)
    (hr1 : timing.fadeInDuration.getD 400 = d1)
    (hr2 : timing.holdDuration.getD 200 = d2)
    (hr3 : timing.fadeOutDuration.getD 1200 = d3)
    (h0 : 0 < d0) (h1 : 0 < d1) (h2 : 0 < d2) (h3 : 0 < d3)
    (he1 : 0 ≤ e1) (h12 : e1 ≤ e2) (he2 : e2 < d0 + d1 + d2 + d3) :
    effectIntensityAt timing e1 ≤ effectIntensityAt timing e2 ∧
    0 ≤ effectIntensityAt timing e1 ∧ effectIntensityAt timing e1 ≤ 1 ∧
    effectIntensityAt timing 0 = 0 ∧
    effectIntensityAt timing (d0 + d1 + d2 + d3) = 0 := by
  have hmono : effectIntensityAt timing e1 ≤ effectIntensityAt timing e2 := by
    simp only [effectIntensityAt, getPhaseProgress, hr0, hr1, hr2, hr3]
    split_ifs <;> simp only [getEffectIntensity, easeInCubic] <;>
      first
      | linarith
      | (have hq : (0:ℚ) ≤ (e2 - d0 - d1 - d2) / d3 :=
          div_nonneg (by linarith) (by linarith)
         linarith)
      | (have hqle : (e1 - d0 - d1 - d2) / d3 ≤ (e2 - d0 - d1 - d2) / d3 :=
          (div_le_div_iff_of_pos_right h3).mpr (by linarith)
         linarith)
      | (have hp : (0:ℚ) ≤ (e2 - d0) / d1 := div_nonneg (by linarith) (by linarith)
         nlinarith [mul_nonneg (mul_nonneg hp hp) hp])
      | (have hp1 : (0:ℚ) ≤ (e1 - d0) / d1 := div_nonneg (by linarith) (by linarith)
         have hp2 : (0:ℚ) ≤ (e2 - d0) / d1 := div_nonneg (by linarith) (by linarith)
         have hple : (e1 - d0) / d1 ≤ (e2 - d0) / d1 :=
          (div_le_div_iff_of_pos_right h1).mpr (by linarith)
         nlinarith [mul_nonneg (mul_nonneg hp1 hp1) hp1,
           mul_nonneg (sub_nonneg.mpr hple) (mul_nonneg hp1 hp1),
           mul_nonneg (sub_nonneg.mpr hple) (mul_nonneg hp1 hp2),
           mul_nonneg (sub_nonneg.mpr hple) (mul_nonneg hp2 hp2)])
      | (have hp1 : (0:ℚ) ≤ (e1 - d0) / d1 := div_nonneg (by linarith) (by linarith)
         have hp1lt : (e1 - d0) / d1 < 1 := (div_lt_one h1).mpr (by linarith)
         nlinarith [mul_nonneg hp1 hp1,
           mul_nonneg (by linarith : (0:ℚ) ≤ 1 - (e1 - d0) / d1) (mul_nonneg hp1 hp1),
           mul_nonneg (by linarith : (0:ℚ) ≤ 1 - (e1 - d0) / d1) hp1])
      | (have hp1 : (0:ℚ) ≤ (e1 - d0) / d1 := div_nonneg (by linarith) (by linarith)
         have hp1lt : (e1 - d0) / d1 < 1 := (div_lt_one h1).mpr (by linarith)
         have hq : (0:ℚ) ≤ (e2 - d0 - d1 - d2) / d3 :=
          div_nonneg (by linarith) (by linarith)
         nlinarith [mul_nonneg hp1 hp1,
           mul_nonneg (by linarith : (0:ℚ) ≤ 1 - (e1 - d0) / d1) (mul_nonneg hp1 hp1),
           mul_nonneg (by linarith : (0:ℚ) ≤ 1 - (e1 - d0) / d1) hp1])
  have hbounds : 0 ≤ effectIntensityAt timing e1 ∧ effectIntensityAt timing e1 ≤ 1 := by
    simp only [effectIntensityAt, getPhaseProgress, hr0, hr1, hr2, hr3]
    split_ifs <;> simp only [getEffectIntensity, easeInCubic] <;>
      first
      | (constructor <;> norm_num <;> done)
      | (have hp1 : (0:ℚ) ≤ (e1 - d0) / d1 := div_nonneg (by linarith) (by linarith)
         have hp1lt : (e1 - d0) / d1 < 1 := (div_lt_one h1).mpr (by linarith)
         constructor <;>
           nlinarith [mul_nonneg hp1 hp1, mul_nonneg (mul_nonneg hp1 hp1) hp1,
             mul_nonneg (by linarith : (0:ℚ) ≤ 1 - (e1 - d0) / d1) (mul_nonneg hp1 hp1),
             mul_nonneg (by linarith : (0:ℚ) ≤ 1 - (e1 - d0) / d1) hp1])
      | (have hq1 : (0:ℚ) ≤ (e1 - d0 - d1 - d2) / d3 :=
          div_nonneg (by linarith) (by linarith)
         have hq1lt : (e1 - d0 - d1 - d2) / d3 < 1 := (div_lt_one h3).mpr (by linarith)
         constructor <;> linarith)
  have hzero : effectIntensityAt timing 0 = 0 := by
    simp only [effectIntensityAt, getPhaseProgress, hr0, hr1, hr2, hr3]
    rw [if_pos h0]
    simp [getEffectIntensity]
  have htotal : effectIntensityAt timing (d0 + d1 + d2 + d3) = 0 := by
    have hc := getPhaseProgress_complete_core timing d0 d1 d2 d3 (d0 + d1 + d2 + d3)
      hr0 hr1 hr2 hr3 h0.le h1.le h2.le h3.le le_rfl
    simp [effectIntensityAt, hc, getEffectIntensity]
  exact ⟨hmono, hbounds.1, hbounds.2, hzero, htotal⟩

/-- Witness for C10 at the default timing, elapsed 300 then 900. -/
theorem effectIntensityAt_monotone_witness :
    effectIntensityAt ⟨some 200, some 400, some 200, some 1200⟩ 300 ≤
      effectIntensityAt ⟨some 200, some 400, some 200, some 1200⟩ 900 ∧
    0 ≤ effectIntensityAt ⟨some 200, some 400, some 200, some 1200⟩ 300 ∧
    effectIntensityAt ⟨some 200, some 400, some 200, some 1200⟩ 300 ≤ 1 ∧
    effectIntensityAt ⟨some 200, some 400, some 200, some 1200⟩ 0 = 0 ∧
    effectIntensityAt ⟨some 200, some 400, some 200, some 1200⟩
      (200 + 400 + 200 + 1200) = 0 :=
  effectIntensityAt_monotone _ 200 400 200 1200 300 900 rfl rfl rfl rfl
    (by norm_num) (by norm_num) (by norm_num) (by norm_num)
    (by norm_num) (by norm_num) (by norm_num)

end Disintegrate
